import Mathlib

/-!
Verification development for the spotify-song-recommender repository.

The Python source (src/graphs.py, src/get_property_ranges.py) is shallowly
embedded below.  Machine floats are modelled by rationals; the two infinity
sentinels used by the range scanner are modelled explicitly, and operations
that can raise in Python (KeyError, TypeError, ZeroDivisionError, the
ValueError of add_edge) return Option, with `none` standing for a raised
exception.
-/

/-- A value stored in a song's attribute dictionary: a string or a number. -/
inductive AttrVal : Type where
  | str (s : String)
  | num (q : ℚ)
deriving DecidableEq

/-- A property range as produced by get_property_ranges: a finite float or
the +infinity that results from `abs(x - (-inf))`. -/
inductive PRange : Type where
  | fin (q : ℚ)
  | inf
deriving DecidableEq

/-- A well-formed song record, as constructed by build_graph in graphs.py:
three string attributes followed by eleven numeric attributes. -/
structure Song : Type where
  name : String
  artist : String
  genre : String
  year : ℚ
  bpm : ℚ
  energy : ℚ
  danceability : ℚ
  loudness : ℚ
  liveness : ℚ
  valence : ℚ
  length : ℚ
  acousticness : ℚ
  speechiness : ℚ
  popularity : ℚ
deriving DecidableEq

/-- The `attributes` dictionary of a _Song, in the insertion order used by
build_graph (Python dicts iterate in insertion order). -/
def Song.attributes (s : Song) : List (String × AttrVal) :=
  [("name", AttrVal.str s.name), ("artist", AttrVal.str s.artist),
   ("genre", AttrVal.str s.genre), ("year", AttrVal.num s.year),
   ("bpm", AttrVal.num s.bpm), ("energy", AttrVal.num s.energy),
   ("danceability", AttrVal.num s.danceability), ("loudness", AttrVal.num s.loudness),
   ("liveness", AttrVal.num s.liveness), ("valence", AttrVal.num s.valence),
   ("length", AttrVal.num s.length), ("acousticness", AttrVal.num s.acousticness),
   ("speechiness", AttrVal.num s.speechiness), ("popularity", AttrVal.num s.popularity)]

/-- Python dict lookup `d[k]` on an association list: first matching key. -/
def dictLookup {κ ν : Type} [DecidableEq κ] : List (κ × ν) → κ → Option ν
  | [], _ => none
  | p :: rest, k => if p.1 = k then some p.2 else dictLookup rest k

/-- Python dict assignment `d[k] = v`: overwrite in place if the key exists
(keeping its position), otherwise append at the end. -/
def dictSet {κ ν : Type} [DecidableEq κ] (d : List (κ × ν)) (k : κ) (v : ν) :
    List (κ × ν) :=
  if (dictLookup d k).isSome then
    d.map (fun p => if p.1 = k then (k, v) else p)
  else
    d ++ [(k, v)]

/-- `other.attributes[p]` (KeyError modelled as `none`). -/
def attrLookup (s : Song) (p : String) : Option AttrVal :=
  dictLookup s.attributes p

/-- Python float division `d / r` for a finite non-negative numerator against
a range value: division by 0.0 raises ZeroDivisionError (`none`), division by
+inf yields 0.0. -/
def pyDiv (d : ℚ) (r : PRange) : Option ℚ :=
  match r with
  | PRange.inf => some 0
  | PRange.fin q => if q = 0 then none else some (d / q)

/-- One iteration of the loop in _Song.get_similarity (graphs.py lines 78-87):
for a key `p` outside ('name', 'artist', 'genre') add
`100 - abs(a[p] - b[p]) / ranges[p] * 100`; for 'artist' and 'genre' add a
flat 100; for 'name' add nothing.  Any raised exception propagates as `none`. -/
def attrStep (other : Song) (pr : List (String × PRange)) (acc : Option ℚ)
    (kv : String × AttrVal) : Option ℚ :=
  acc.bind fun s =>
    if kv.1 ≠ "name" ∧ kv.1 ≠ "artist" ∧ kv.1 ≠ "genre" then
      match kv.2, attrLookup other kv.1 with
      | AttrVal.num x, some (AttrVal.num y) =>
        match dictLookup pr kv.1 with
        | none => none
        | some r => (pyDiv |x - y| r).map fun t => s + (100 - t * 100)
      | _, _ => none
    else if kv.1 = "artist" ∨ kv.1 = "genre" then some (s + 100)
    else some s

/-- _Song.get_similarity (graphs.py lines 53-91): fold the loop over
self.attributes, then divide by `len(self.attributes) - 1`. -/
def get_similarity (self other : Song) (pr : List (String × PRange)) : Option ℚ :=
  (self.attributes.foldl (attrStep other pr) (some 0)).map
    fun s => s / ((self.attributes.length - 1 : ℕ) : ℚ)

/-! ## get_property_ranges.py -/

/-- The eleven numeric columns of one data row, already parsed to numbers
(columns 4-14 of the CSV; the thousands-separator quirk of `length` is the
loader's concern and happens before parsing). -/
structure Row : Type where
  year : ℚ
  bpm : ℚ
  energy : ℚ
  danceability : ℚ
  loudness : ℚ
  liveness : ℚ
  valence : ℚ
  length : ℚ
  acousticness : ℚ
  speechiness : ℚ
  popularity : ℚ
deriving DecidableEq

/-- The numeric columns of the row a song was built from (build_graph parses
the same CSV line into both the range scan and the song's attributes). -/
def songRow (s : Song) : Row :=
  ⟨s.year, s.bpm, s.energy, s.danceability, s.loudness, s.liveness, s.valence,
   s.length, s.acousticness, s.speechiness, s.popularity⟩

/-- `val < dict_values[i][0]` where the min slot starts at +inf (`none`). -/
def ltMin (mn : Option ℚ) (v : ℚ) : Bool :=
  match mn with
  | none => true
  | some m => decide (v < m)

/-- `val > dict_values[i][1]` where the max slot starts at -inf (`none`). -/
def gtMax (mx : Option ℚ) (v : ℚ) : Bool :=
  match mx with
  | none => true
  | some m => decide (m < v)

/-- The body of the inner loop of get_property_ranges (lines 32-35): note the
`elif`, so a value that lowers the minimum never updates the maximum. -/
def updateCell (c : Option ℚ × Option ℚ) (v : ℚ) : Option ℚ × Option ℚ :=
  if ltMin c.1 v then (some v, c.2)
  else if gtMax c.2 v then (c.1, some v)
  else c

/-- The eleven (min, max) tracking cells of get_property_ranges. -/
structure RangeState : Type where
  year : Option ℚ × Option ℚ
  bpm : Option ℚ × Option ℚ
  energy : Option ℚ × Option ℚ
  danceability : Option ℚ × Option ℚ
  loudness : Option ℚ × Option ℚ
  liveness : Option ℚ × Option ℚ
  valence : Option ℚ × Option ℚ
  length : Option ℚ × Option ℚ
  acousticness : Option ℚ × Option ℚ
  speechiness : Option ℚ × Option ℚ
  popularity : Option ℚ × Option ℚ

/-- All cells start at (+inf, -inf). -/
def initState : RangeState :=
  ⟨(none, none), (none, none), (none, none), (none, none), (none, none),
   (none, none), (none, none), (none, none), (none, none), (none, none),
   (none, none)⟩

/-- One outer-loop iteration of get_property_ranges: update each of the
eleven cells with the row's value for that column. -/
def updateRow (st : RangeState) (r : Row) : RangeState :=
  ⟨updateCell st.year r.year, updateCell st.bpm r.bpm,
   updateCell st.energy r.energy, updateCell st.danceability r.danceability,
   updateCell st.loudness r.loudness, updateCell st.liveness r.liveness,
   updateCell st.valence r.valence, updateCell st.length r.length,
   updateCell st.acousticness r.acousticness,
   updateCell st.speechiness r.speechiness,
   updateCell st.popularity r.popularity⟩

/-- `abs(min - max)` on the sentinel-carrying cells: if either slot still
holds its infinity the Python result is +inf. -/
def rangeResult (c : Option ℚ × Option ℚ) : PRange :=
  match c with
  | (some mn, some mx) => PRange.fin |mn - mx|
  | _ => PRange.inf

/-- get_property_ranges (get_property_ranges.py lines 8-49) over parsed rows. -/
def get_property_ranges (rows : List Row) : List (String × PRange) :=
  let st := rows.foldl updateRow initState
  [("year", rangeResult st.year), ("bpm", rangeResult st.bpm),
   ("energy", rangeResult st.energy), ("danceability", rangeResult st.danceability),
   ("loudness", rangeResult st.loudness), ("liveness", rangeResult st.liveness),
   ("valence", rangeResult st.valence), ("length", rangeResult st.length),
   ("acousticness", rangeResult st.acousticness),
   ("speechiness", rangeResult st.speechiness),
   ("popularity", rangeResult st.popularity)]

/-! ## SongGraph (graphs.py) -/

/-- The graph state: `_vertices` maps a (name, artist) key, in insertion
order, to the _Song object together with its `neighbors` dictionary (keyed
here by the neighbors' (name, artist) identities); `_property_ranges` is the
dictionary passed to the constructor. -/
structure SongGraph : Type where
  vertices : List ((String × String) × Song × List ((String × String) × ℚ))
  property_ranges : List (String × PRange)
deriving DecidableEq

/-- SongGraph.add_vertex (lines 109-113): do nothing if the key is present,
otherwise record a fresh _Song with an empty neighbors dictionary. -/
def add_vertex (g : SongGraph) (s : Song) : SongGraph :=
  let key := (s.name, s.artist)
  if (dictLookup g.vertices key).isSome then g
  else { g with vertices := g.vertices ++ [(key, s, [])] }

/-- The two neighbor-dictionary assignments of add_edge, applied to the
vertex stored under key `k`: `song1.neighbors[song2] = similarity` then
`song2.neighbors[song1] = similarity`. -/
def edgeUpd (k1 k2 : String × String) (sim : ℚ) (k : String × String)
    (v : Song × List ((String × String) × ℚ)) :
    Song × List ((String × String) × ℚ) :=
  (v.1,
    let nb := if k = k1 then dictSet v.2 k2 sim else v.2
    if k = k2 then dictSet nb k1 sim else nb)

/-- SongGraph.add_edge (lines 115-127): if both songs are in the graph store
the similarity in both neighbors dictionaries, else raise ValueError
(`none`). -/
def add_edge (g : SongGraph) (k1 k2 : String × String) (sim : ℚ) :
    Option SongGraph :=
  if (dictLookup g.vertices k1).isSome && (dictLookup g.vertices k2).isSome then
    some { g with vertices := g.vertices.map fun e => (e.1, edgeUpd k1 k2 sim e.1 e.2) }
  else none

/-- The neighbors dictionary of the song stored at key `k` (empty when no
such vertex exists). -/
def nbrsOf (g : SongGraph) (k : String × String) :
    List ((String × String) × ℚ) :=
  match dictLookup g.vertices k with
  | some e => e.2
  | none => []

/-- The cached similarity stored at endpoint `k` for neighbor `j`. -/
def nbrLookup (g : SongGraph) (k j : String × String) : Option ℚ :=
  dictLookup (nbrsOf g k) j

/-- SongGraph.get_artists_by_song (lines 129-131): the artists of all keys
whose title equals `name`, in insertion order. -/
def get_artists_by_song (g : SongGraph) (name : String) : List String :=
  g.vertices.filterMap fun e => if name = e.1.1 then some e.1.2 else none

/-- _insert_song (graphs.py lines 215-226): walk the list and insert before
the first entry with a strictly lower similarity, else append. -/
def _insert_song (lst : List ((String × String) × ℚ)) (name artist : String)
    (similarity : ℚ) : List ((String × String) × ℚ) :=
  match lst with
  | [] => [((name, artist), similarity)]
  | p :: rest =>
    if p.2 < similarity then ((name, artist), similarity) :: p :: rest
    else p :: _insert_song rest name artist similarity

/-- The loop of _get_reformatted_songs: append a song when its similarity
meets the threshold, and return early as soon as the accumulated length
equals num_songs. -/
def reformatLoop (num_songs : ℕ) (threshold : ℚ) :
    List ((String × String) × ℚ) → List (String × String) → List (String × String)
  | [], acc => acc
  | (song, sim) :: rest, acc =>
    let acc2 := if threshold ≤ sim then acc ++ [song] else acc
    if acc2.length = num_songs then acc2 else reformatLoop num_songs threshold rest acc2

/-- _get_reformatted_songs (graphs.py lines 229-240). -/
def _get_reformatted_songs (lst : List ((String × String) × ℚ))
    (num_songs : ℕ) (threshold : ℚ) : List (String × String) :=
  reformatLoop num_songs threshold lst []

/-- The general-path loop of get_recommendations (lines 160-169): iterate the
vertices in insertion order, skip the queried song, reuse a cached edge if
present, otherwise compute the similarity and record the edge (threading the
mutated graph), inserting each candidate into the working list. -/
def recLoop (key : String × String) (song : Song) :
    SongGraph → List ((String × String) × Song) → List ((String × String) × ℚ) →
    Option (List ((String × String) × ℚ) × SongGraph)
  | g, [], lst => some (lst, g)
  | g, (k, other) :: rest, lst =>
    if k = key then recLoop key song g rest lst
    else
      match nbrLookup g key k with
      | some sim => recLoop key song g rest (_insert_song lst other.name other.artist sim)
      | none =>
        match get_similarity song other g.property_ranges with
        | none => none
        | some sim =>
          match add_edge g key k sim with
          | none => none
          | some g2 => recLoop key song g2 rest (_insert_song lst other.name other.artist sim)

/-- SongGraph.get_recommendations (graphs.py lines 133-171).  Returns the
recommended (name, artist) list together with the graph state after the
call; `none` models a raised exception. -/
def get_recommendations (g : SongGraph) (name artist : String)
    (num_songs : ℕ) (similarity_threshold : ℚ) :
    Option (List (String × String) × SongGraph) :=
  if artist ∉ get_artists_by_song g name then some ([], g)
  else
    match dictLookup g.vertices (name, artist) with
    | none => none
    | some e =>
      let song := e.1
      let nbrs := e.2
      if nbrs.length = g.vertices.length then
        let lst := nbrs.foldl (fun acc p => _insert_song acc p.1.1 p.1.2 p.2) []
        some (_get_reformatted_songs lst num_songs similarity_threshold, g)
      else
        match recLoop (name, artist) song g
            (g.vertices.map fun v => (v.1, v.2.1)) [] with
        | none => none
        | some (lst, g2) =>
          some (_get_reformatted_songs lst num_songs similarity_threshold, g2)

/-! ## Concrete instances used by evaluations and witnesses -/

/-- Build a song from a name, artist, genre and its eleven numeric values. -/
def mkSong (n a g : String) (v : List ℚ) : Song :=
  ⟨n, a, g, v.getD 0 0, v.getD 1 0, v.getD 2 0, v.getD 3 0, v.getD 4 0,
   v.getD 5 0, v.getD 6 0, v.getD 7 0, v.getD 8 0, v.getD 9 0, v.getD 10 0⟩

/-- A range dictionary with eleven given entries, in the key order produced
by get_property_ranges. -/
def mkRangeList (ry rb re rd rlo rli rv rle rac rsp rpo : PRange) :
    List (String × PRange) :=
  [("year", ry), ("bpm", rb), ("energy", re), ("danceability", rd),
   ("loudness", rlo), ("liveness", rli), ("valence", rv), ("length", rle),
   ("acousticness", rac), ("speechiness", rsp), ("popularity", rpo)]

/-- The eleven numeric attribute names, in scan order. -/
def numericKeys : List String :=
  ["year", "bpm", "energy", "danceability", "loudness", "liveness",
   "valence", "length", "acousticness", "speechiness", "popularity"]

def sA : Song := mkSong "a" "x" "g" [0, 0, 0, 0, 0, 0, 0, 0, 0, 0, 0]

def sB : Song := mkSong "b" "y" "g" [1, 0, 0, 0, 0, 0, 0, 0, 0, 0, 0]

/-- All ranges equal to 1. -/
def onesRanges : List (String × PRange) :=
  mkRangeList (PRange.fin 1) (PRange.fin 1) (PRange.fin 1) (PRange.fin 1)
    (PRange.fin 1) (PRange.fin 1) (PRange.fin 1) (PRange.fin 1)
    (PRange.fin 1) (PRange.fin 1) (PRange.fin 1)

/-- All ranges 1 except a zero range for year. -/
def zeroYearRanges : List (String × PRange) :=
  mkRangeList (PRange.fin 0) (PRange.fin 1) (PRange.fin 1) (PRange.fin 1)
    (PRange.fin 1) (PRange.fin 1) (PRange.fin 1) (PRange.fin 1)
    (PRange.fin 1) (PRange.fin 1) (PRange.fin 1)

/-- A two-song graph over sA and sB with no cached edges. -/
def g0 : SongGraph :=
  { vertices := [(("a", "x"), sA, []), (("b", "y"), sB, [])],
    property_ranges := onesRanges }

/-- A row with all eleven columns equal to 5. -/
def row5 : Row := ⟨5, 5, 5, 5, 5, 5, 5, 5, 5, 5, 5⟩

/-- A row with all eleven columns equal to 3. -/
def row3 : Row := ⟨3, 3, 3, 3, 3, 3, 3, 3, 3, 3, 3⟩

/-- The all-infinite range dictionary. -/
def allInfRanges : List (String × PRange) :=
  mkRangeList PRange.inf PRange.inf PRange.inf PRange.inf PRange.inf
    PRange.inf PRange.inf PRange.inf PRange.inf PRange.inf PRange.inf

/-- Catalog for the boundedness counterexample: sP has an extreme year that
the broken range scan never sees as the maximum. -/
def sP : Song := mkSong "p" "pa" "g" [1000, 0, 0, 0, 0, 0, 0, 0, 0, 0, 0]

def sQ : Song := mkSong "q" "qa" "g" [0, 1, 1, 1, 1, 1, 1, 1, 1, 1, 1]

def sR : Song := mkSong "r" "ra" "g" [1, 2, 2, 2, 2, 2, 2, 2, 2, 2, 2]

/-- The graph g0 after add_edge has recorded the similarity 50 between its
two songs, at both endpoints. -/
def gEdge : SongGraph :=
  { vertices := [(("a", "x"), sA, [(("b", "y"), (50 : ℚ))]),
                 (("b", "y"), sB, [(("a", "x"), (50 : ℚ))])],
    property_ranges := onesRanges }

/-- A working list sorted in descending order of similarity. -/
def SortedDesc (lst : List ((String × String) × ℚ)) : Prop :=
  lst.Pairwise fun p q => q.2 ≤ p.2

instance : DecidablePred SortedDesc := fun lst =>
  List.instDecidablePairwise lst

/-- A two-entry working list, sorted descending, whose last score ties the
inserted one. -/
def lstW : List ((String × String) × ℚ) := [(("a", "a"), (90 : ℚ)), (("b", "b"), 80)]

/-! ## Theorems -/

/-- Claim C1, counterexample: with a zero range for `year`, the similarity
computation of two well-formed songs performs the division anyway and raises
ZeroDivisionError (modelled as `none`) — there is no 100-contribution
branch, so a division failure does occur. -/
theorem zero_range_division_fails_concrete :
    get_similarity sA sB zeroYearRanges = none := by decide

set_option maxHeartbeats 1600000 in
/-- Claim C2, failing input: on a two-song catalog, a query with
`num_songs = 0` and threshold 0 returns one recommendation, so the result
length exceeds `maxResults`: the early-exit test `len == num_songs` is
checked only after an append and is never satisfied for 0. -/
theorem recommendations_exceed_zero_max :
    (get_recommendations g0 "a" "x" 0 0).map Prod.fst = some [("b", "y")] := by
  simp [get_recommendations, get_artists_by_song, dictLookup, dictSet, nbrsOf, nbrLookup,
    recLoop, add_edge, edgeUpd, _insert_song, _get_reformatted_songs, reformatLoop,
    get_similarity, Song.attributes, attrStep, attrLookup, pyDiv,
    g0, sA, sB, onesRanges, mkRangeList, mkSong]
  norm_num

/-- Claim C4, failing input: for the two rows (5,...,5) then (3,...,3) the
scanner's `elif` never updates the maximum (every value arrives as a new
minimum), so every computed range is `abs(min - (-inf)) = +inf` instead of
the claimed `max - min = 2`. -/
theorem property_ranges_descending_rows_inf :
    get_property_ranges [row5, row3] = allInfRanges := by decide

/-- Claim C5, counterexample: on zero rows, range-index construction does
not fail at all — it returns a full 11-entry dictionary (every entry being
the +inf produced by `abs(inf - (-inf))`); no EmptyCatalogError exists in
the code. -/
theorem property_ranges_empty_returns :
    (get_property_ranges []).length = 11 := by decide

/-- Claim C5, amended: given zero rows, get_property_ranges returns
successfully, mapping every numeric attribute to +infinity. -/
theorem property_ranges_empty_all_inf :
    get_property_ranges [] = allInfRanges := by decide

/-- Claim C8, failing input: with ranges computed from the catalog
{sP, sQ, sR} itself (whose broken scan records a year range of 1 while the
actual year spread is 1000), the similarity score of sP and sQ is
-99200/13, far below 0. -/
theorem similarity_unbounded_on_own_catalog :
    get_similarity sP sQ (get_property_ranges [songRow sP, songRow sQ, songRow sR])
        = some (-99200 / 13) ∧ (-99200 / 13 : ℚ) < 0 := by
  constructor
  · simp [get_similarity, Song.attributes, attrStep, attrLookup, dictLookup, pyDiv,
      get_property_ranges, updateRow, updateCell, ltMin, gtMax, initState, rangeResult,
      songRow, sP, sQ, sR, mkSong]
    norm_num
  · norm_num

/-! ## Helper lemmas for the zero-range behavior of get_similarity -/

lemma attrStep_acc_none (o : Song) (pr : List (String × PRange)) (kv : String × AttrVal) :
    attrStep o pr none kv = none := rfl

lemma foldl_attrStep_none (o : Song) (pr : List (String × PRange)) :
    ∀ l : List (String × AttrVal), List.foldl (attrStep o pr) none l = none
  | [] => rfl
  | kv :: l => by
    rw [List.foldl_cons, attrStep_acc_none]
    exact foldl_attrStep_none o pr l

lemma attrStep_zero_range (o : Song) (pr : List (String × PRange)) (acc : Option ℚ)
    (p : String) (x : ℚ)
    (hp1 : p ≠ "name") (hp2 : p ≠ "artist") (hp3 : p ≠ "genre")
    (h0 : dictLookup pr p = some (PRange.fin 0)) :
    attrStep o pr acc (p, AttrVal.num x) = none := by
  cases acc with
  | none => rfl
  | some s =>
    simp only [attrStep, Option.some_bind]
    rw [if_pos ⟨hp1, hp2, hp3⟩]
    cases hA : attrLookup o p with
    | none => rfl
    | some v =>
      cases v with
      | str t => rfl
      | num y => simp [h0, pyDiv]

lemma get_similarity_none_of_split (a b : Song) (pr : List (String × PRange))
    (p : String) (x : ℚ) (l1 l2 : List (String × AttrVal))
    (hx : Song.attributes a = l1 ++ (p, AttrVal.num x) :: l2)
    (hp1 : p ≠ "name") (hp2 : p ≠ "artist") (hp3 : p ≠ "genre")
    (h0 : dictLookup pr p = some (PRange.fin 0)) :
    get_similarity a b pr = none := by
  unfold get_similarity
  rw [hx, List.foldl_append, List.foldl_cons,
    attrStep_zero_range b pr _ p x hp1 hp2 hp3 h0, foldl_attrStep_none]
  rfl

/-- Claim C1, amended: for any two well-formed songs and any range
dictionary assigning range 0 to one of the eleven numeric attributes, the
similarity computation performs the division anyway and raises
ZeroDivisionError (modelled as `none`); there is no 100-contribution
branch for a zero range. -/
theorem get_similarity_zero_range_raises (a b : Song) (pr : List (String × PRange))
    (p : String) (hp : p ∈ numericKeys)
    (h0 : dictLookup pr p = some (PRange.fin 0)) :
    get_similarity a b pr = none := by
  simp only [numericKeys] at hp
  fin_cases hp
  · exact get_similarity_none_of_split a b pr "year" a.year
      ((Song.attributes a).take 3) ((Song.attributes a).drop 4) rfl
      (by decide) (by decide) (by decide) h0
  · exact get_similarity_none_of_split a b pr "bpm" a.bpm
      ((Song.attributes a).take 4) ((Song.attributes a).drop 5) rfl
      (by decide) (by decide) (by decide) h0
  · exact get_similarity_none_of_split a b pr "energy" a.energy
      ((Song.attributes a).take 5) ((Song.attributes a).drop 6) rfl
      (by decide) (by decide) (by decide) h0
  · exact get_similarity_none_of_split a b pr "danceability" a.danceability
      ((Song.attributes a).take 6) ((Song.attributes a).drop 7) rfl
      (by decide) (by decide) (by decide) h0
  · exact get_similarity_none_of_split a b pr "loudness" a.loudness
      ((Song.attributes a).take 7) ((Song.attributes a).drop 8) rfl
      (by decide) (by decide) (by decide) h0
  · exact get_similarity_none_of_split a b pr "liveness" a.liveness
      ((Song.attributes a).take 8) ((Song.attributes a).drop 9) rfl
      (by decide) (by decide) (by decide) h0
  · exact get_similarity_none_of_split a b pr "valence" a.valence
      ((Song.attributes a).take 9) ((Song.attributes a).drop 10) rfl
      (by decide) (by decide) (by decide) h0
  · exact get_similarity_none_of_split a b pr "length" a.length
      ((Song.attributes a).take 10) ((Song.attributes a).drop 11) rfl
      (by decide) (by decide) (by decide) h0
  · exact get_similarity_none_of_split a b pr "acousticness" a.acousticness
      ((Song.attributes a).take 11) ((Song.attributes a).drop 12) rfl
      (by decide) (by decide) (by decide) h0
  · exact get_similarity_none_of_split a b pr "speechiness" a.speechiness
      ((Song.attributes a).take 12) ((Song.attributes a).drop 13) rfl
      (by decide) (by decide) (by decide) h0
  · exact get_similarity_none_of_split a b pr "popularity" a.popularity
      ((Song.attributes a).take 13) ((Song.attributes a).drop 14) rfl
      (by decide) (by decide) (by decide) h0

/-- Claim C1, witness: the amended theorem applied to a concrete input with
a zero bpm range. -/
theorem get_similarity_zero_range_raises_witness :
    get_similarity sB sA
        (mkRangeList (PRange.fin 2) (PRange.fin 0) (PRange.fin 1) (PRange.fin 1)
          (PRange.fin 1) (PRange.fin 1) (PRange.fin 1) (PRange.fin 1)
          (PRange.fin 1) (PRange.fin 1) (PRange.fin 1)) = none :=
  get_similarity_zero_range_raises sB sA _ "bpm" (by decide) (by decide)

/-! ## Helper lemmas for the dictionary operations -/

lemma dictLookup_map_of_isSome {κ ν : Type} [DecidableEq κ]
    (k : κ) (v : ν) :
    ∀ d : List (κ × ν), (dictLookup d k).isSome →
      dictLookup (d.map fun p => if p.1 = k then (k, v) else p) k = some v
  | [], h => by simp [dictLookup] at h
  | p :: rest, h => by
    by_cases hpk : p.1 = k
    · simp [dictLookup, hpk]
    · simp only [List.map_cons, if_neg hpk, dictLookup] at h ⊢
      exact dictLookup_map_of_isSome k v rest h

lemma dictLookup_append_single {κ ν : Type} [DecidableEq κ]
    (k : κ) (v : ν) :
    ∀ d : List (κ × ν), dictLookup d k = none →
      dictLookup (d ++ [(k, v)]) k = some v
  | [], _ => by simp [dictLookup]
  | p :: rest, h => by
    by_cases hpk : p.1 = k
    · simp [dictLookup, hpk] at h
    · simp only [dictLookup, hpk, if_false, List.cons_append] at h ⊢
      exact dictLookup_append_single k v rest h

lemma dictLookup_dictSet_self {κ ν : Type} [DecidableEq κ]
    (d : List (κ × ν)) (k : κ) (v : ν) :
    dictLookup (dictSet d k v) k = some v := by
  unfold dictSet
  by_cases h : (dictLookup d k).isSome
  · rw [if_pos h]
    exact dictLookup_map_of_isSome k v d h
  · rw [if_neg h]
    exact dictLookup_append_single k v d (Option.not_isSome_iff_eq_none.mp h)

lemma dictLookup_map_val {κ α β : Type} [DecidableEq κ]
    (f : κ → α → β) (k : κ) :
    ∀ d : List (κ × α),
      dictLookup (d.map fun p => (p.1, f p.1 p.2)) k = (dictLookup d k).map (f k)
  | [] => rfl
  | p :: rest => by
    by_cases hpk : p.1 = k
    · simp [dictLookup, hpk]
    · simp only [List.map_cons, dictLookup, hpk, if_false]
      exact dictLookup_map_val f k rest

/-- Claim C6: the similarity function is symmetric in its two song
arguments, and add_edge stores the same value in both endpoints' neighbor
dictionaries, so the cached score is available from either endpoint. -/
theorem similarity_symmetric_and_edge_cached :
    (∀ (a b : Song) (r1 r2 r3 r4 r5 r6 r7 r8 r9 r10 r11 : PRange),
      get_similarity a b (mkRangeList r1 r2 r3 r4 r5 r6 r7 r8 r9 r10 r11)
        = get_similarity b a (mkRangeList r1 r2 r3 r4 r5 r6 r7 r8 r9 r10 r11)) ∧
    (∀ (g : SongGraph) (k1 k2 : String × String) (sim : ℚ) (g' : SongGraph),
      add_edge g k1 k2 sim = some g' →
      nbrLookup g' k1 k2 = some sim ∧ nbrLookup g' k2 k1 = some sim) := by
  constructor
  · intro a b r1 r2 r3 r4 r5 r6 r7 r8 r9 r10 r11
    simp [get_similarity, Song.attributes, attrStep, attrLookup, dictLookup,
      mkRangeList, pyDiv, abs_sub_comm]
  · intro g k1 k2 sim g' h
    unfold add_edge at h
    by_cases hc : (dictLookup g.vertices k1).isSome && (dictLookup g.vertices k2).isSome
    · rw [if_pos hc] at h
      have hg := (Option.some.inj h).symm
      subst hg
      obtain ⟨hc1, hc2⟩ := Bool.and_eq_true _ _ ▸ hc
      obtain ⟨e1, he1⟩ := Option.isSome_iff_exists.mp hc1
      obtain ⟨e2, he2⟩ := Option.isSome_iff_exists.mp hc2
      constructor
      · unfold nbrLookup nbrsOf
        rw [show (({ g with
              vertices := g.vertices.map fun e => (e.1, edgeUpd k1 k2 sim e.1 e.2) } :
            SongGraph)).vertices
          = g.vertices.map fun e => (e.1, edgeUpd k1 k2 sim e.1 e.2) from rfl]
        rw [dictLookup_map_val (edgeUpd k1 k2 sim) k1 g.vertices, he1]
        simp only [Option.map_some']
        show dictLookup (edgeUpd k1 k2 sim k1 e1).2 k2 = some sim
        unfold edgeUpd
        by_cases h12 : k1 = k2
        · subst h12
          simp only [if_pos rfl]
          exact dictLookup_dictSet_self _ _ _
        · simp only [if_pos rfl, if_neg h12]
          exact dictLookup_dictSet_self _ _ _
      · unfold nbrLookup nbrsOf
        rw [show (({ g with
              vertices := g.vertices.map fun e => (e.1, edgeUpd k1 k2 sim e.1 e.2) } :
            SongGraph)).vertices
          = g.vertices.map fun e => (e.1, edgeUpd k1 k2 sim e.1 e.2) from rfl]
        rw [dictLookup_map_val (edgeUpd k1 k2 sim) k2 g.vertices, he2]
        simp only [Option.map_some']
        show dictLookup (edgeUpd k1 k2 sim k2 e2).2 k1 = some sim
        unfold edgeUpd
        simp only [if_pos rfl]
        exact dictLookup_dictSet_self _ _ _
    · rw [if_neg hc] at h
      exact absurd h (by simp)


/-- Claim C6, witness: both conjuncts applied at concrete inputs. -/
theorem similarity_symmetric_and_edge_cached_witness :
    (get_similarity sA sB onesRanges = get_similarity sB sA onesRanges) ∧
    (nbrLookup gEdge ("a", "x") ("b", "y") = some 50 ∧
     nbrLookup gEdge ("b", "y") ("a", "x") = some 50) :=
  ⟨similarity_symmetric_and_edge_cached.1 sA sB _ _ _ _ _ _ _ _ _ _ _,
   similarity_symmetric_and_edge_cached.2 g0 ("a", "x") ("b", "y") 50 gEdge (by decide)⟩

/-- Claim C7: _insert_song places the new entry immediately before the first
existing entry with a strictly lower score (appending when none is lower),
and on a descending-sorted list every kept prefix entry has score >= the new
one and every moved suffix entry has a strictly lower score — so equal
scores keep their scan order. -/
theorem insert_song_before_first_strictly_lower :
    ∀ (lst : List ((String × String) × ℚ)) (name artist : String) (s : ℚ),
      _insert_song lst name artist s
        = lst.take (lst.findIdx fun p => decide (p.2 < s))
            ++ ((name, artist), s) :: lst.drop (lst.findIdx fun p => decide (p.2 < s))
      ∧ (SortedDesc lst →
          (∀ q ∈ lst.take (lst.findIdx fun p => decide (p.2 < s)), s ≤ q.2) ∧
          (∀ q ∈ lst.drop (lst.findIdx fun p => decide (p.2 < s)), q.2 < s)) := by
  intro lst name artist s
  induction lst with
  | nil => exact ⟨rfl, fun _ => ⟨by simp, by simp⟩⟩
  | cons p rest ih =>
    by_cases hps : p.2 < s
    · have hf : ((p :: rest).findIdx fun q => decide (q.2 < s)) = 0 := by
        simp [List.findIdx_cons, hps]
      constructor
      · rw [hf]
        simp [_insert_song, hps]
      · intro hsort
        rw [hf]
        refine ⟨by simp, ?_⟩
        intro q hq
        simp only [List.drop_zero] at hq
        rcases List.mem_cons.mp hq with h | h
        · rw [h]; exact hps
        · exact lt_of_le_of_lt ((List.pairwise_cons.mp hsort).1 q h) hps
    · have hf : ((p :: rest).findIdx fun q => decide (q.2 < s))
          = (rest.findIdx fun q => decide (q.2 < s)) + 1 := by
        simp [List.findIdx_cons, hps]
      constructor
      · rw [hf]
        simp only [List.take_succ_cons, List.drop_succ_cons]
        simp only [_insert_song, if_neg hps]
        rw [ih.1]
        simp
      · intro hsort
        have hsort' : SortedDesc rest := (List.pairwise_cons.mp hsort).2
        rw [hf]
        constructor
        · intro q hq
          simp only [List.take_succ_cons] at hq
          rcases List.mem_cons.mp hq with h | h
          · rw [h]; exact not_lt.mp hps
          · exact (ih.2 hsort').1 q h
        · intro q hq
          simp only [List.drop_succ_cons] at hq
          exact (ih.2 hsort').2 q hq

/-- Claim C7, witness: inserting a score that ties the last entry of a
sorted two-entry list places it at the very end, after the equal-score
entry. -/
theorem insert_song_before_first_strictly_lower_witness :
    _insert_song lstW "c" "c" 80
        = lstW.take (lstW.findIdx fun p => decide (p.2 < 80))
            ++ (("c", "c"), (80 : ℚ)) :: lstW.drop (lstW.findIdx fun p => decide (p.2 < 80))
      ∧ ((∀ q ∈ lstW.take (lstW.findIdx fun p => decide (p.2 < 80)), (80 : ℚ) ≤ q.2) ∧
         (∀ q ∈ lstW.drop (lstW.findIdx fun p => decide (p.2 < 80)), q.2 < 80)) :=
  ⟨(insert_song_before_first_strictly_lower lstW "c" "c" 80).1,
   (insert_song_before_first_strictly_lower lstW "c" "c" 80).2 (by decide)⟩

/-- Claim C3: with all eleven ranges finite and nonzero, the similarity of
two well-formed songs is exactly (100 + 100 + the eleven numeric
contributions 100 - |a - b| / range * 100) divided by 13: artist and genre
contribute a flat 100 without their values being compared, title contributes
nothing, and the divisor is the 14 attributes minus one. -/
theorem similarity_closed_formula (a b : Song)
    (ry rb re rd rlo rli rv rle rac rsp rpo : ℚ)
    (h1 : ry ≠ 0) (h2 : rb ≠ 0) (h3 : re ≠ 0) (h4 : rd ≠ 0) (h5 : rlo ≠ 0)
    (h6 : rli ≠ 0) (h7 : rv ≠ 0) (h8 : rle ≠ 0) (h9 : rac ≠ 0) (h10 : rsp ≠ 0)
    (h11 : rpo ≠ 0) :
    get_similarity a b (mkRangeList (PRange.fin ry) (PRange.fin rb) (PRange.fin re)
        (PRange.fin rd) (PRange.fin rlo) (PRange.fin rli) (PRange.fin rv)
        (PRange.fin rle) (PRange.fin rac) (PRange.fin rsp) (PRange.fin rpo))
      = some ((100 + 100 +
          ((100 - |a.year - b.year| / ry * 100) +
           (100 - |a.bpm - b.bpm| / rb * 100) +
           (100 - |a.energy - b.energy| / re * 100) +
           (100 - |a.danceability - b.danceability| / rd * 100) +
           (100 - |a.loudness - b.loudness| / rlo * 100) +
           (100 - |a.liveness - b.liveness| / rli * 100) +
           (100 - |a.valence - b.valence| / rv * 100) +
           (100 - |a.length - b.length| / rle * 100) +
           (100 - |a.acousticness - b.acousticness| / rac * 100) +
           (100 - |a.speechiness - b.speechiness| / rsp * 100) +
           (100 - |a.popularity - b.popularity| / rpo * 100))) / 13) := by
  simp [get_similarity, Song.attributes, attrStep, attrLookup, dictLookup, pyDiv,
    mkRangeList, h1, h2, h3, h4, h5, h6, h7, h8, h9, h10, h11]
  ring_nf

/-- Claim C3, witness: the closed formula applied to two concrete songs
with all ranges 1. -/
theorem similarity_closed_formula_witness :
    get_similarity sA sB onesRanges
      = some ((100 + 100 +
          ((100 - |sA.year - sB.year| / 1 * 100) +
           (100 - |sA.bpm - sB.bpm| / 1 * 100) +
           (100 - |sA.energy - sB.energy| / 1 * 100) +
           (100 - |sA.danceability - sB.danceability| / 1 * 100) +
           (100 - |sA.loudness - sB.loudness| / 1 * 100) +
           (100 - |sA.liveness - sB.liveness| / 1 * 100) +
           (100 - |sA.valence - sB.valence| / 1 * 100) +
           (100 - |sA.length - sB.length| / 1 * 100) +
           (100 - |sA.acousticness - sB.acousticness| / 1 * 100) +
           (100 - |sA.speechiness - sB.speechiness| / 1 * 100) +
           (100 - |sA.popularity - sB.popularity| / 1 * 100))) / 13) :=
  similarity_closed_formula sA sB 1 1 1 1 1 1 1 1 1 1 1
    one_ne_zero one_ne_zero one_ne_zero one_ne_zero one_ne_zero one_ne_zero
    one_ne_zero one_ne_zero one_ne_zero one_ne_zero one_ne_zero

/-- Claim C9: a query whose artist is not among the artists found for the
title returns the empty list (and an unchanged graph) without raising, and
the title lookup itself returns the empty list when no stored key carries
the queried title. -/
theorem unknown_pair_returns_empty :
    (∀ (g : SongGraph) (name artist : String) (n : ℕ) (t : ℚ),
      artist ∉ get_artists_by_song g name →
      get_recommendations g name artist n t = some ([], g)) ∧
    (∀ (g : SongGraph) (name : String),
      (∀ e ∈ g.vertices, e.1.1 ≠ name) → get_artists_by_song g name = []) := by
  constructor
  · intro g name artist n t h
    unfold get_recommendations
    rw [if_pos h]
  · intro g name h
    unfold get_artists_by_song
    rw [List.filterMap_eq_nil_iff]
    intro e he
    rw [if_neg (Ne.symm (h e he))]

/-- Claim C9, witness: both conjuncts applied to the concrete graph g0. -/
theorem unknown_pair_returns_empty_witness :
    (get_recommendations g0 "a" "zz" 3 0 = some ([], g0)) ∧
    (get_artists_by_song g0 "nope" = []) :=
  ⟨unknown_pair_returns_empty.1 g0 "a" "zz" 3 0 (by decide),
   unknown_pair_returns_empty.2 g0 "nope" (by decide)⟩

lemma dictLookup_isSome_of_mem {κ ν : Type} [DecidableEq κ] :
    ∀ (d : List (κ × ν)) (k : κ), k ∈ d.map (fun e => e.1) →
      (dictLookup d k).isSome
  | [], k, h => by simp at h
  | p :: rest, k, h => by
    by_cases hpk : p.1 = k
    · simp [dictLookup, hpk]
    · simp only [List.map_cons, List.mem_cons] at h
      rcases h with h | h
      · exact absurd h.symm hpk
      · simp only [dictLookup, hpk, if_false]
        exact dictLookup_isSome_of_mem rest k h

/-- Claim C10: inserting a song whose (name, artist) key is already present
leaves the graph (hence the stored record) completely unchanged, and
add_vertex preserves the no-duplicate-identities invariant of the vertex
dictionary. -/
theorem add_vertex_first_write_wins :
    (∀ (g : SongGraph) (s : Song),
      (dictLookup g.vertices (s.name, s.artist)).isSome → add_vertex g s = g) ∧
    (∀ (g : SongGraph) (s : Song),
      (g.vertices.map fun e => e.1).Nodup →
      ((add_vertex g s).vertices.map fun e => e.1).Nodup) := by
  constructor
  · intro g s h
    unfold add_vertex
    rw [if_pos h]
  · intro g s h
    unfold add_vertex
    by_cases hs : (dictLookup g.vertices (s.name, s.artist)).isSome
    · rw [if_pos hs]
      exact h
    · rw [if_neg hs]
      simp only [List.map_append, List.map_cons, List.map_nil]
      rw [List.nodup_append]
      refine ⟨h, List.nodup_singleton _, ?_⟩
      intro a ha hb
      rw [List.mem_singleton.mp hb] at ha
      exact hs (dictLookup_isSome_of_mem g.vertices (s.name, s.artist) ha)

/-- Claim C10, witness: re-inserting the already present sA leaves g0
unchanged, and inserting the fresh sR keeps the keys duplicate-free. -/
theorem add_vertex_first_write_wins_witness :
    (add_vertex g0 sA = g0) ∧
    ((add_vertex g0 sR).vertices.map fun e => e.1).Nodup :=
  ⟨add_vertex_first_write_wins.1 g0 sA (by decide),
   add_vertex_first_write_wins.2 g0 sR (by decide)⟩
